import Mathlib

/-!
Shallow embedding of `app/wyzebridge/stream_manager.py`.

The stream registry, the snapshot-subprocess tracker and the command
dispatcher are modelled as pure functions over an explicit state record.
External collaborators (the `Stream` objects, the snapshot policies, the
OS process table, `json.dumps`) are modelled as unconstrained data or
function parameters, mirroring the interfaces the source consumes.
Observable side effects (publishing, starting/stopping streams, spawning
and killing subprocesses) are accumulated in an explicit effect trace.
-/

namespace WB

/-- JSON-like values: payloads, response fields and published values. -/
inductive JVal where
  | str : String → JVal
  | num : Int → JVal
  | bool : Bool → JVal
  | null : JVal
  | dict : List (String × JVal) → JVal

/-- Python `dict[str, ...]` as an insertion-ordered association list. -/
abbrev Dict := List (String × JVal)

/-- Python `v == s` for a string literal `s`: only a string value compares
equal to a string. -/
def JVal.eqStr (v : JVal) (s : String) : Bool :=
  match v with
  | .str t => t = s
  | _ => false

/-- `d.get(k)`: first binding of `k`, if any. -/
def dictGet {α : Type} : List (String × α) → String → Option α
  | [], _ => none
  | (k2, v) :: rest, k => if k2 = k then some v else dictGet rest k

/-- `d[k] = v`: replace in place when the key exists, append otherwise. -/
def dictInsert {α : Type} : List (String × α) → String → α → List (String × α)
  | [], k, v => [(k, v)]
  | (k2, v2) :: rest, k, v =>
      if k2 = k then (k2, v) :: rest else (k2, v2) :: dictInsert rest k v

/-- `del d[k]`: drop the binding of `k`. -/
def dictRemove {α : Type} : List (String × α) → String → List (String × α)
  | [], _ => []
  | (k2, v2) :: rest, k => if k2 = k then rest else (k2, v2) :: dictRemove rest k

/-- Python `a | b`: `a` updated with every binding of `b`, in order. -/
def dictMerge {α : Type} (a b : List (String × α)) : List (String × α) :=
  b.foldl (fun acc kv => dictInsert acc kv.1 kv.2) a

/-- The physical device descriptor hanging off a stream (`stream.cam`). -/
structure Cam where
  mac : String
  nickname : String
  product_model : String
  name_uri : String
deriving DecidableEq, Repr

/-- A `Stream` collaborator object, as consumed by the manager: its
attributes plus the value its `health_check()` returns at this instant and
the response its `send_cmd` would give for each command/payload. -/
structure Stream where
  cam : Cam
  uri : String
  name_uri : String
  product_model : String
  channel : Nat
  display_name : String
  enabled : Bool
  connected : Bool
  health : Int
  send_cmd_resp : String → JVal → Dict

/-- A `Popen` capture-process handle: its pid, the current `poll()` result
(`none` while it is still running) and the outcome of `wait(timeout=15)` —
`some c` when it returns exit code `c` within the bound, `none` when the
wait times out or otherwise fails to produce an exit code. -/
structure Proc where
  pid : Nat
  poll : Option Int
  waitResult : Option Int
deriving DecidableEq, Repr

/-- The `StreamManager`'s own mutable state. -/
structure SMState where
  streams : List (String × Stream)
  stop_flag : Bool
  rtsp_snapshots : List (String × Proc)
  last_snap : Nat

/-- Observable side effects on external collaborators. -/
inductive Eff where
  | publish (topic : String) (value : JVal)
  | stream_start (cam : String)
  | stream_stop (cam : String)
  | spawn (cam : String) (pid : Nat)
  | kill_proc (pid : Nat)
  | save_thumbnail (cam : String)
  | forward_cmd (cam : String) (cmd : String)

/-- The environment: configuration constants, the wall clock, the external
snapshot policies, `json.dumps`, and the OS's supply of fresh processes
(indexed by how many spawns have happened so far). -/
structure Env where
  snapshot_type : String
  now : Nat
  should_take_snapshot : String → Nat → Bool
  should_skip_snapshot : String → Bool
  json_dumps : Dict → String
  fresh : Nat → Proc

/-- An execution point: manager state, effect trace, spawn count. -/
structure Exec where
  st : SMState
  effs : List Eff
  spawned : Nat

/-- `getattr(cam, "product_model", None) or getattr(stream, "product_model",
None) or ""` — the truthiness chain used by `_duo_variants`. -/
def effective_product_model (s : Stream) : String :=
  if s.cam.product_model ≠ "" then s.cam.product_model
  else if s.product_model ≠ "" then s.product_model
  else ""

/-- The dual-channel model set checked by `_duo_variants`. -/
def duo_models : List String := ["WL_DUO", "GW_DUO"]

/-- `base_uri = getattr(src, "uri", None) or getattr(src, "name_uri", None)`,
falling back to `cam.name_uri` when both are falsy. -/
def duo_base_uri (s : Stream) : String :=
  if s.uri ≠ "" then s.uri
  else if s.name_uri ≠ "" then s.name_uri
  else s.cam.name_uri

/-- `_mk_variant(src, channel, suffix, title_suffix)`: a deep copy of `src`
with the channel flag set, a suffixed uri and a suffixed display label.
The nickname fallback mirrors `nick = nick or getattr(src, "uri", ...)`. -/
def mk_variant (src : Stream) (channel : Nat) (suffix title_suffix : String) : Stream :=
  { src with
    channel := channel
    uri := duo_base_uri src ++ "-" ++ suffix
    display_name :=
      (if src.cam.nickname ≠ "" then src.cam.nickname else src.uri) ++ " " ++ title_suffix }

/-- `_duo_variants(stream)`: expand a DUO-model stream into its PTZ and
Wide variants, return any other stream unchanged. -/
def duo_variants (s : Stream) : List Stream :=
  if effective_product_model s ∈ duo_models then
    [mk_variant s 0 "ptz" "(PTZ)", mk_variant s 1 "wide" "(Wide)"]
  else [s]

/-- `first_uri or stream.uri` at the end of `StreamManager.add`. -/
def add_result_uri (variants : List Stream) (s : Stream) : String :=
  match variants.head? with
  | some v => if v.uri = "" then s.uri else v.uri
  | none => s.uri

/-- `StreamManager.add(stream)`: register every variant under its uri and
return the first variant's uri. -/
def add (st : SMState) (s : Stream) : String × SMState :=
  (add_result_uri (duo_variants s) s,
   { st with streams :=
       (duo_variants s).foldl (fun acc v => dictInsert acc v.uri v) st.streams })

/-- `StreamManager.active_streams()`: `[]` when the stop flag is set, else
the keys whose stream's `health_check()` is positive, in registry order. -/
def active_streams (st : SMState) : List String :=
  if st.stop_flag then []
  else (st.streams.filter fun p => p.2.health > 0).map Prod.fst

/-- `Popen(rtsp_snap_cmd(cam_name, interval), stderr=None)` plus
`self.rtsp_snapshots[cam_name] = ffmpeg`: spawn the next fresh process and
record it under `cam_name`. -/
def spawn_snap (env : Env) (ex : Exec) (cam_name : String) : Option Proc × Exec :=
  let p := env.fresh ex.spawned
  (some p,
   { st := { ex.st with rtsp_snapshots := dictInsert ex.st.rtsp_snapshots cam_name p }
     effs := ex.effs ++ [Eff.spawn cam_name p.pid]
     spawned := ex.spawned + 1 })

/-- `StreamManager.rtsp_snap_popen(cam_name, interval)`: `None` for an
unknown key; otherwise start the stream, reuse a tracked still-running
handle, and spawn a fresh process when none is live. -/
def rtsp_snap_popen (env : Env) (ex : Exec) (cam_name : String) (_interval : Bool) :
    Option Proc × Exec :=
  match dictGet ex.st.streams cam_name with
  | none => (none, ex)
  | some _ =>
    match dictGet ex.st.rtsp_snapshots cam_name with
    | some ffmpeg =>
        if ffmpeg.poll = none then
          (some ffmpeg, { ex with effs := ex.effs ++ [Eff.stream_start cam_name] })
        else
          spawn_snap env { ex with effs := ex.effs ++ [Eff.stream_start cam_name] } cam_name
    | none => spawn_snap env { ex with effs := ex.effs ++ [Eff.stream_start cam_name] } cam_name

/-- `StreamManager.stop_subprocess(cam)`: when a handle is tracked, remove
it and — if it is still running — kill it. -/
def stop_subprocess (ex : Exec) (cam : String) : Exec :=
  match dictGet ex.st.rtsp_snapshots cam with
  | none => ex
  | some ffmpeg =>
    if ffmpeg.poll = none then
      { st := { ex.st with rtsp_snapshots := dictRemove ex.st.rtsp_snapshots cam },
        effs := ex.effs ++ [Eff.kill_proc ffmpeg.pid], spawned := ex.spawned }
    else
      { ex with st := { ex.st with rtsp_snapshots := dictRemove ex.st.rtsp_snapshots cam } }

/-- `StreamManager.get_rtsp_snap(cam_name)`: `False` for an unknown or
unhealthy stream; otherwise wait (bounded) on the capture handle, and in
every path through the `try` block run `stop_subprocess` before returning
whether the process exited with code 0 within the bound. -/
def get_rtsp_snap (env : Env) (ex : Exec) (cam_name : String) : Bool × Exec :=
  match dictGet ex.st.streams cam_name with
  | none => (false, ex)
  | some stream =>
    if stream.health < 1 then (false, ex)
    else
      match rtsp_snap_popen env ex cam_name false with
      | (none, ex1) => (false, ex1)
      | (some ffmpeg, ex1) => (ffmpeg.waitResult == some 0, stop_subprocess ex1 cam_name)

/-- The body of `snap_all`'s per-camera loop: skip suppressed cameras, and
otherwise dispatch on `SNAPSHOT_TYPE` — "rtsp" stops any prior capture and
starts a fresh one, "api" requests a cloud thumbnail, anything else is a
no-op. -/
def snap_cam (env : Env) (ex : Exec) (cam_name : String) : Exec :=
  if env.should_skip_snapshot cam_name then ex
  else if env.snapshot_type = "rtsp" then
    (rtsp_snap_popen env (stop_subprocess ex cam_name) cam_name true).2
  else if env.snapshot_type = "api" then
    { ex with effs := ex.effs ++ [Eff.save_thumbnail cam_name] }
  else ex

/-- `self.last_snap = time.time()` at the start of a snapshot round. -/
def snap_start (env : Env) (ex : Exec) : Exec :=
  { ex with st := { ex.st with last_snap := env.now } }

/-- `cams or self.active_streams()`: an empty or absent list is falsy, so
the registry's active keys are used instead. -/
def snap_round_cams (ex1 : Exec) (cams : Option (List String)) : List String :=
  match cams with
  | some l => if l = [] then active_streams ex1.st else l
  | none => active_streams ex1.st

/-- `StreamManager.snap_all(cams, force)`: gate on `force or
should_take_snapshot(...)`; when the round proceeds, set `last_snap = now`
and loop over `cams or self.active_streams()`. -/
def snap_all (env : Env) (ex : Exec) (cams : Option (List String)) (force : Bool) : Exec :=
  if force || env.should_take_snapshot env.snapshot_type ex.st.last_snap then
    (snap_round_cams (snap_start env ex) cams).foldl (snap_cam env) (snap_start env ex)
  else ex

/-- The generic error envelope `{"status": "error", "command": cmd,
"payload": payload}` built at the top of `send_cmd`. -/
def err_resp (cmd : String) (payload : JVal) : Dict :=
  [("status", JVal.str "error"), ("command", JVal.str cmd), ("payload", payload)]

/-- `status = cam_resp.get("value") if cam_resp.get("status") == "success"
else 0`, followed by `json.dumps` when the value is a dict. -/
def extract_status (env : Env) (cam_resp : Dict) : JVal :=
  let status0 :=
    if (match dictGet cam_resp "status" with
        | some v => v.eqStr "success"
        | none => false) then
      (dictGet cam_resp "value").getD JVal.null
    else JVal.num 0
  match status0 with
  | JVal.dict d => JVal.str (env.json_dumps d)
  | v => v

/-- Append one effect to the trace. -/
def add_eff (ex : Exec) (e : Eff) : Exec :=
  { ex with effs := ex.effs ++ [e] }

/-- `if demand_opened: stream.stop()` — stop the stream after the snapshot
attempt when the connection had been demand-opened. -/
def stop_if_demand (cam_name : String) (connected : Bool) (ex : Exec) : Exec :=
  if connected then ex else add_eff ex (Eff.stream_stop cam_name)

/-- `return cam_resp if "status" in cam_resp else resp | cam_resp` — the
shared final return of `send_cmd`. -/
def fallback_reply (cmd : String) (payload : JVal) (cam_resp : Dict) : Dict :=
  if (dictGet cam_resp "status").isSome then cam_resp
  else dictMerge (err_resp cmd payload) cam_resp

/-- `StreamManager.send_cmd(cam_name, cmd, payload)`: the command
dispatcher, returning the response envelope together with the resulting
execution point. -/
def send_cmd (env : Env) (ex : Exec) (cam_name cmd : String) (payload : JVal) :
    Dict × Exec :=
  if cam_name = "all" ∧ cmd = "update_snapshot" then
    (dictMerge (err_resp cmd payload) [("status", JVal.str "success")],
     snap_all env ex none true)
  else
    match dictGet ex.st.streams cam_name with
    | none => (dictMerge (err_resp cmd payload) [("response", JVal.str "Camera not found")], ex)
    | some stream =>
      if (stream.send_cmd_resp cmd payload).isEmpty then
        (fallback_reply cmd payload (stream.send_cmd_resp cmd payload),
         add_eff ex (Eff.forward_cmd cam_name cmd))
      else if (dictGet (stream.send_cmd_resp cmd payload) "update_snapshot").isSome then
        (dictMerge (err_resp cmd payload)
           [("status", JVal.str "success"),
            ("value", JVal.bool
              (get_rtsp_snap env (add_eff ex (Eff.forward_cmd cam_name cmd)) cam_name).1),
            ("response", JVal.bool
              (get_rtsp_snap env (add_eff ex (Eff.forward_cmd cam_name cmd)) cam_name).1)],
         add_eff
           (stop_if_demand cam_name stream.connected
              (get_rtsp_snap env (add_eff ex (Eff.forward_cmd cam_name cmd)) cam_name).2)
           (Eff.publish (cam_name ++ "/" ++ cmd)
              (if (get_rtsp_snap env (add_eff ex (Eff.forward_cmd cam_name cmd)) cam_name).1
               then JVal.num (Int.ofNat env.now) else JVal.num 0)))
      else
        (fallback_reply cmd payload (stream.send_cmd_resp cmd payload),
         add_eff (add_eff ex (Eff.forward_cmd cam_name cmd))
           (Eff.publish (cam_name ++ "/" ++ cmd)
              (extract_status env (stream.send_cmd_resp cmd payload))))

/-! ### Association-list lemmas -/

theorem dictGet_dictInsert_self {α : Type} (d : List (String × α)) (k : String) (v : α) :
    dictGet (dictInsert d k v) k = some v := by
  induction d with
  | nil => simp [dictInsert, dictGet]
  | cons hd tl ih =>
      obtain ⟨k2, v2⟩ := hd
      by_cases h : k2 = k
      · simp [dictInsert, dictGet, h]
      · simp only [dictInsert, if_neg h, dictGet]
        exact ih

theorem dictGet_dictInsert_ne {α : Type} (d : List (String × α)) (k k3 : String) (v : α)
    (h : k ≠ k3) : dictGet (dictInsert d k v) k3 = dictGet d k3 := by
  induction d with
  | nil => simp [dictInsert, dictGet, h]
  | cons hd tl ih =>
      obtain ⟨k2, v2⟩ := hd
      by_cases hh : k2 = k
      · simp only [dictInsert, if_pos hh, dictGet]
        by_cases h3 : k2 = k3
        · exact absurd (h3 ▸ hh.symm) h
        · rw [if_neg h3, if_neg h3]
      · simp only [dictInsert, if_neg hh, dictGet]
        by_cases h3 : k2 = k3
        · rw [if_pos h3, if_pos h3]
        · rw [if_neg h3, if_neg h3]
          exact ih

theorem mem_keys_dictInsert {α : Type} (d : List (String × α)) (k k3 : String) (v : α) :
    k3 ∈ (dictInsert d k v).map Prod.fst ↔ k3 ∈ d.map Prod.fst ∨ k3 = k := by
  induction d with
  | nil => simp [dictInsert]
  | cons hd tl ih =>
      obtain ⟨k2, v2⟩ := hd
      by_cases hh : k2 = k
      · subst hh
        simp [dictInsert]
        tauto
      · simp only [dictInsert, if_neg hh, List.map_cons, List.mem_cons, ih]
        tauto

theorem length_dictInsert_of_absent {α : Type} (d : List (String × α)) (k : String) (v : α)
    (h : dictGet d k = none) : (dictInsert d k v).length = d.length + 1 := by
  induction d with
  | nil => simp [dictInsert]
  | cons hd tl ih =>
      obtain ⟨k2, v2⟩ := hd
      by_cases hh : k2 = k
      · rw [dictGet, if_pos hh] at h
        exact absurd h (by simp)
      · rw [dictGet, if_neg hh] at h
        simp only [dictInsert, if_neg hh, List.length_cons, ih h]

theorem dictGet_eq_none_of_not_mem_keys {α : Type} (d : List (String × α)) (k : String)
    (h : k ∉ d.map Prod.fst) : dictGet d k = none := by
  induction d with
  | nil => rfl
  | cons hd tl ih =>
      obtain ⟨k2, v2⟩ := hd
      rw [List.map_cons, List.mem_cons] at h
      push_neg at h
      rw [dictGet, if_neg (fun e => h.1 e.symm)]
      exact ih h.2

theorem nodup_keys_dictInsert {α : Type} (d : List (String × α)) (k : String) (v : α)
    (h : (d.map Prod.fst).Nodup) : ((dictInsert d k v).map Prod.fst).Nodup := by
  induction d with
  | nil => simp [dictInsert]
  | cons hd tl ih =>
      obtain ⟨k2, v2⟩ := hd
      rw [List.map_cons, List.nodup_cons] at h
      by_cases hh : k2 = k
      · rw [dictInsert, if_pos hh, List.map_cons, List.nodup_cons]
        exact h
      · rw [dictInsert, if_neg hh, List.map_cons, List.nodup_cons]
        refine ⟨?_, ih h.2⟩
        intro hmem
        rcases (mem_keys_dictInsert tl k k2 v).1 hmem with hm | hm
        · exact h.1 hm
        · exact hh hm

theorem dictGet_dictRemove_self {α : Type} (d : List (String × α)) (k : String)
    (h : (d.map Prod.fst).Nodup) : dictGet (dictRemove d k) k = none := by
  induction d with
  | nil => rfl
  | cons hd tl ih =>
      obtain ⟨k2, v2⟩ := hd
      rw [List.map_cons, List.nodup_cons] at h
      by_cases hh : k2 = k
      · rw [dictRemove, if_pos hh]
        exact dictGet_eq_none_of_not_mem_keys tl k (hh ▸ h.1)
      · rw [dictRemove, if_neg hh, dictGet, if_neg hh]
        exact ih h.2

/-! ### Branch equations for the capture-process operations -/

theorem stop_subprocess_absent (ex : Exec) (cam : String)
    (h : dictGet ex.st.rtsp_snapshots cam = none) : stop_subprocess ex cam = ex := by
  unfold stop_subprocess
  rw [h]

theorem stop_subprocess_live (ex : Exec) (cam : String) (p : Proc)
    (h : dictGet ex.st.rtsp_snapshots cam = some p) (hl : p.poll = none) :
    stop_subprocess ex cam =
      { st := { ex.st with rtsp_snapshots := dictRemove ex.st.rtsp_snapshots cam },
        effs := ex.effs ++ [Eff.kill_proc p.pid], spawned := ex.spawned } := by
  unfold stop_subprocess
  rw [h]
  simp [hl]

theorem stop_subprocess_dead (ex : Exec) (cam : String) (p : Proc)
    (h : dictGet ex.st.rtsp_snapshots cam = some p) (hl : p.poll ≠ none) :
    stop_subprocess ex cam =
      { ex with st := { ex.st with rtsp_snapshots := dictRemove ex.st.rtsp_snapshots cam } } := by
  unfold stop_subprocess
  rw [h]
  simp [hl]

theorem rtsp_snap_popen_no_stream (env : Env) (ex : Exec) (cam : String) (i : Bool)
    (h : dictGet ex.st.streams cam = none) : rtsp_snap_popen env ex cam i = (none, ex) := by
  unfold rtsp_snap_popen
  rw [h]

theorem rtsp_snap_popen_reuse (env : Env) (ex : Exec) (cam : String) (i : Bool)
    (s : Stream) (p : Proc) (hs : dictGet ex.st.streams cam = some s)
    (hp : dictGet ex.st.rtsp_snapshots cam = some p) (hl : p.poll = none) :
    rtsp_snap_popen env ex cam i =
      (some p, { ex with effs := ex.effs ++ [Eff.stream_start cam] }) := by
  unfold rtsp_snap_popen
  rw [hs]
  simp only []
  rw [hp]
  simp [hl]

theorem rtsp_snap_popen_spawn_absent (env : Env) (ex : Exec) (cam : String) (i : Bool)
    (s : Stream) (hs : dictGet ex.st.streams cam = some s)
    (hp : dictGet ex.st.rtsp_snapshots cam = none) :
    rtsp_snap_popen env ex cam i =
      spawn_snap env { ex with effs := ex.effs ++ [Eff.stream_start cam] } cam := by
  unfold rtsp_snap_popen
  rw [hs]
  simp only []
  rw [hp]

theorem rtsp_snap_popen_spawn_dead (env : Env) (ex : Exec) (cam : String) (i : Bool)
    (s : Stream) (p : Proc) (hs : dictGet ex.st.streams cam = some s)
    (hp : dictGet ex.st.rtsp_snapshots cam = some p) (hl : p.poll ≠ none) :
    rtsp_snap_popen env ex cam i =
      spawn_snap env { ex with effs := ex.effs ++ [Eff.stream_start cam] } cam := by
  unfold rtsp_snap_popen
  rw [hs]
  simp only []
  rw [hp]
  simp [hl]

theorem get_rtsp_snap_wait (env : Env) (ex ex1 : Exec) (cam : String) (s : Stream) (p : Proc)
    (hs : dictGet ex.st.streams cam = some s) (hh : ¬ s.health < 1)
    (hr : rtsp_snap_popen env ex cam false = (some p, ex1)) :
    get_rtsp_snap env ex cam = (p.waitResult == some 0, stop_subprocess ex1 cam) := by
  unfold get_rtsp_snap
  rw [hs]
  simp only []
  rw [if_neg hh, hr]

/-! ### Frame lemmas -/

theorem spawn_snap_last_snap (env : Env) (ex : Exec) (cam : String) :
    ((spawn_snap env ex cam).2).st.last_snap = ex.st.last_snap := rfl

theorem stop_subprocess_last_snap (ex : Exec) (cam : String) :
    (stop_subprocess ex cam).st.last_snap = ex.st.last_snap := by
  cases hD : dictGet ex.st.rtsp_snapshots cam with
  | none => rw [stop_subprocess_absent ex cam hD]
  | some p =>
      by_cases hl : p.poll = none
      · rw [stop_subprocess_live ex cam p hD hl]
      · rw [stop_subprocess_dead ex cam p hD hl]

theorem rtsp_snap_popen_last_snap (env : Env) (ex : Exec) (cam : String) (i : Bool) :
    ((rtsp_snap_popen env ex cam i).2).st.last_snap = ex.st.last_snap := by
  cases hS : dictGet ex.st.streams cam with
  | none => rw [rtsp_snap_popen_no_stream env ex cam i hS]
  | some s =>
      cases hD : dictGet ex.st.rtsp_snapshots cam with
      | none =>
          rw [rtsp_snap_popen_spawn_absent env ex cam i s hS hD]
          rfl
      | some p =>
          by_cases hl : p.poll = none
          · rw [rtsp_snap_popen_reuse env ex cam i s p hS hD hl]
          · rw [rtsp_snap_popen_spawn_dead env ex cam i s p hS hD hl]
            rfl

theorem snap_cam_last_snap (env : Env) (ex : Exec) (cam : String) :
    (snap_cam env ex cam).st.last_snap = ex.st.last_snap := by
  unfold snap_cam
  by_cases hk : env.should_skip_snapshot cam
  · simp [hk]
  · by_cases hr : env.snapshot_type = "rtsp"
    · simp [hk, hr, rtsp_snap_popen_last_snap, stop_subprocess_last_snap]
    · by_cases ha : env.snapshot_type = "api"
      · simp [hk, hr, ha]
      · simp [hk, hr, ha]

theorem foldl_snap_cam_last_snap (env : Env) (l : List String) (ex : Exec) :
    (l.foldl (snap_cam env) ex).st.last_snap = ex.st.last_snap := by
  induction l generalizing ex with
  | nil => rfl
  | cons hd tl ih => rw [List.foldl_cons, ih, snap_cam_last_snap]

theorem spawn_snap_forward (env : Env) (ex : Exec) (cam c m : String)
    (h : Eff.forward_cmd c m ∈ ((spawn_snap env ex cam).2).effs) :
    Eff.forward_cmd c m ∈ ex.effs := by
  simp only [spawn_snap, List.mem_append, List.mem_singleton] at h
  rcases h with h | h
  · exact h
  · exact absurd h (by simp)

theorem stop_subprocess_forward (ex : Exec) (cam c m : String)
    (h : Eff.forward_cmd c m ∈ (stop_subprocess ex cam).effs) :
    Eff.forward_cmd c m ∈ ex.effs := by
  cases hD : dictGet ex.st.rtsp_snapshots cam with
  | none => rwa [stop_subprocess_absent ex cam hD] at h
  | some p =>
      by_cases hl : p.poll = none
      · rw [stop_subprocess_live ex cam p hD hl] at h
        simp only [List.mem_append, List.mem_singleton] at h
        rcases h with h | h
        · exact h
        · exact absurd h (by simp)
      · rwa [stop_subprocess_dead ex cam p hD hl] at h

theorem rtsp_snap_popen_forward (env : Env) (ex : Exec) (cam : String) (i : Bool)
    (c m : String) (h : Eff.forward_cmd c m ∈ ((rtsp_snap_popen env ex cam i).2).effs) :
    Eff.forward_cmd c m ∈ ex.effs := by
  cases hS : dictGet ex.st.streams cam with
  | none =>
      rw [rtsp_snap_popen_no_stream env ex cam i hS] at h
      exact h
  | some s =>
      have start_case :
          Eff.forward_cmd c m ∈ (ex.effs ++ [Eff.stream_start cam]) →
          Eff.forward_cmd c m ∈ ex.effs := by
        intro hx
        simp only [List.mem_append, List.mem_singleton] at hx
        rcases hx with hx | hx
        · exact hx
        · exact absurd hx (by simp)
      cases hD : dictGet ex.st.rtsp_snapshots cam with
      | none =>
          rw [rtsp_snap_popen_spawn_absent env ex cam i s hS hD] at h
          exact start_case (spawn_snap_forward env _ cam c m h)
      | some p =>
          by_cases hl : p.poll = none
          · rw [rtsp_snap_popen_reuse env ex cam i s p hS hD hl] at h
            exact start_case h
          · rw [rtsp_snap_popen_spawn_dead env ex cam i s p hS hD hl] at h
            exact start_case (spawn_snap_forward env _ cam c m h)

theorem snap_cam_forward (env : Env) (ex : Exec) (cam c m : String)
    (h : Eff.forward_cmd c m ∈ (snap_cam env ex cam).effs) :
    Eff.forward_cmd c m ∈ ex.effs := by
  unfold snap_cam at h
  by_cases hk : env.should_skip_snapshot cam
  · simpa [hk] using h
  · by_cases hr : env.snapshot_type = "rtsp"
    · rw [if_neg (by simp [hk]), if_pos hr] at h
      exact stop_subprocess_forward ex cam c m
        (rtsp_snap_popen_forward env _ cam true c m h)
    · by_cases ha : env.snapshot_type = "api"
      · rw [if_neg (by simp [hk]), if_neg hr, if_pos ha] at h
        simp only [List.mem_append, List.mem_singleton] at h
        rcases h with h | h
        · exact h
        · exact absurd h (by simp)
      · rw [if_neg (by simp [hk]), if_neg hr, if_neg ha] at h
        exact h

theorem foldl_snap_cam_forward (env : Env) (l : List String) (ex : Exec) (c m : String)
    (h : Eff.forward_cmd c m ∈ (l.foldl (snap_cam env) ex).effs) :
    Eff.forward_cmd c m ∈ ex.effs := by
  induction l generalizing ex with
  | nil => exact h
  | cons hd tl ih =>
      rw [List.foldl_cons] at h
      exact snap_cam_forward env ex hd c m (ih (snap_cam env ex hd) h)

theorem snap_all_forward (env : Env) (ex : Exec) (cams : Option (List String)) (f : Bool)
    (c m : String) (h : Eff.forward_cmd c m ∈ (snap_all env ex cams f).effs) :
    Eff.forward_cmd c m ∈ ex.effs := by
  unfold snap_all at h
  by_cases hg : (f || env.should_take_snapshot env.snapshot_type ex.st.last_snap) = true
  · rw [if_pos hg] at h
    exact foldl_snap_cam_forward env (snap_round_cams (snap_start env ex) cams)
      (snap_start env ex) c m h
  · rwa [if_neg hg] at h

theorem stop_subprocess_tracker_absent (ex : Exec) (cam : String)
    (h : ((ex.st.rtsp_snapshots).map Prod.fst).Nodup) :
    dictGet (stop_subprocess ex cam).st.rtsp_snapshots cam = none := by
  cases hD : dictGet ex.st.rtsp_snapshots cam with
  | none => rwa [stop_subprocess_absent ex cam hD]
  | some p =>
      by_cases hl : p.poll = none
      · rw [stop_subprocess_live ex cam p hD hl]
        exact dictGet_dictRemove_self ex.st.rtsp_snapshots cam h
      · rw [stop_subprocess_dead ex cam p hD hl]
        exact dictGet_dictRemove_self ex.st.rtsp_snapshots cam h

theorem nodup_tracker_rtsp_snap_popen (env : Env) (ex : Exec) (cam : String) (i : Bool)
    (h : ((ex.st.rtsp_snapshots).map Prod.fst).Nodup) :
    ((((rtsp_snap_popen env ex cam i).2).st.rtsp_snapshots).map Prod.fst).Nodup := by
  cases hS : dictGet ex.st.streams cam with
  | none =>
      rw [rtsp_snap_popen_no_stream env ex cam i hS]
      exact h
  | some s =>
      cases hD : dictGet ex.st.rtsp_snapshots cam with
      | none =>
          rw [rtsp_snap_popen_spawn_absent env ex cam i s hS hD]
          exact nodup_keys_dictInsert _ _ _ h
      | some p =>
          by_cases hl : p.poll = none
          · rw [rtsp_snap_popen_reuse env ex cam i s p hS hD hl]
            exact h
          · rw [rtsp_snap_popen_spawn_dead env ex cam i s p hS hD hl]
            exact nodup_keys_dictInsert _ _ _ h

/-! ### Concrete fixtures for witnesses and counterexamples -/

/-- A concrete environment: rtsp snapshot mode, interval policy not due,
no per-camera suppression, fresh processes that exit 0 within the wait. -/
def fxEnv : Env :=
  { snapshot_type := "rtsp"
    now := 100
    should_take_snapshot := fun _ _ => false
    should_skip_snapshot := fun _ => false
    json_dumps := fun _ => ""
    fresh := fun n => { pid := n + 50, poll := none, waitResult := some 0 } }

def fxCamDuo : Cam :=
  { mac := "A1B2", nickname := "Front Door", product_model := "WL_DUO", name_uri := "cam1" }

def fxCamPlain : Cam :=
  { mac := "C3D4", nickname := "Garage", product_model := "HL_CAM3", name_uri := "cam1" }

/-- A registered dual-channel stream. -/
def fxDuoStream : Stream :=
  { cam := fxCamDuo, uri := "cam1", name_uri := "cam1", product_model := ""
    channel := 0, display_name := "Front Door", enabled := true, connected := true
    health := 1, send_cmd_resp := fun _ _ => [] }

/-- A registered single-channel stream whose `send_cmd` yields no response. -/
def fxBase : Stream :=
  { cam := fxCamPlain, uri := "cam1", name_uri := "cam1", product_model := ""
    channel := 0, display_name := "Garage", enabled := true, connected := true
    health := 1, send_cmd_resp := fun _ _ => [] }

def fxEmptyState : SMState :=
  { streams := [], stop_flag := false, rtsp_snapshots := [], last_snap := 7 }

def fxEmptyEx : Exec := { st := fxEmptyState, effs := [], spawned := 0 }

def fxState : SMState := { fxEmptyState with streams := [("cam1", fxBase)] }

def fxEx : Exec := { st := fxState, effs := [], spawned := 0 }

/-- A disabled but healthy stream (`enabled = false`, `health_check() = 1`). -/
def fxDisabled : Stream := { fxBase with enabled := false }

def fxC2State : SMState := { fxEmptyState with streams := [("cam1", fxDisabled)] }

def fxStopState : SMState := { fxC2State with stop_flag := true }

/-- A still-running tracked capture handle. -/
def fxLiveProc : Proc := { pid := 9, poll := none, waitResult := none }

def fxC6Ex : Exec :=
  { st := { fxState with rtsp_snapshots := [("cam1", fxLiveProc)] }, effs := [], spawned := 0 }

/-! ### C10 -/

/-- C10: for a key absent from the registry, `rtsp_snap_popen` returns
`None` and leaves the execution point unchanged — the tracker is untouched,
no process is spawned and no stream is started. -/
theorem rtsp_snap_popen_unknown_key (env : Env) (ex : Exec) (cam : String) (i : Bool)
    (h : dictGet ex.st.streams cam = none) :
    rtsp_snap_popen env ex cam i = (none, ex) :=
  rtsp_snap_popen_no_stream env ex cam i h

/-- C10 witness: the unknown key "ghost" on an empty registry. -/
theorem rtsp_snap_popen_unknown_key_witness :
    dictGet fxEmptyEx.st.streams "ghost" = none ∧
    rtsp_snap_popen fxEnv fxEmptyEx "ghost" false = (none, fxEmptyEx) :=
  ⟨rfl, rtsp_snap_popen_unknown_key fxEnv fxEmptyEx "ghost" false rfl⟩

/-! ### C6 -/

/-- C6: while the tracked handle for a registered key is still running
(`poll()` is `None`), `rtsp_snap_popen` returns that handle unchanged —
the manager state and spawn count are untouched, only the stream-start
effect is recorded — and a second call straight after returns the very
same handle again (idempotence; no duplicate process is spawned). -/
theorem rtsp_snap_popen_reuses_live_handle (env : Env) (ex : Exec) (cam : String)
    (i i2 : Bool) (s : Stream) (p : Proc)
    (hs : dictGet ex.st.streams cam = some s)
    (hp : dictGet ex.st.rtsp_snapshots cam = some p) (hl : p.poll = none) :
    (rtsp_snap_popen env ex cam i).1 = some p ∧
    ((rtsp_snap_popen env ex cam i).2).st = ex.st ∧
    ((rtsp_snap_popen env ex cam i).2).spawned = ex.spawned ∧
    ((rtsp_snap_popen env ex cam i).2).effs = ex.effs ++ [Eff.stream_start cam] ∧
    (rtsp_snap_popen env ((rtsp_snap_popen env ex cam i).2) cam i2).1 = some p := by
  have h1 := rtsp_snap_popen_reuse env ex cam i s p hs hp hl
  refine ⟨by rw [h1], by rw [h1], by rw [h1], by rw [h1], ?_⟩
  rw [h1]
  have h2 := rtsp_snap_popen_reuse env
    { ex with effs := ex.effs ++ [Eff.stream_start cam] } cam i2 s p hs hp hl
  rw [h2]

/-- C6 witness: a live handle for "cam1" is reused across two calls. -/
theorem rtsp_snap_popen_reuses_live_handle_witness :
    dictGet fxC6Ex.st.streams "cam1" = some fxBase ∧
    dictGet fxC6Ex.st.rtsp_snapshots "cam1" = some fxLiveProc ∧
    fxLiveProc.poll = none ∧
    (rtsp_snap_popen fxEnv fxC6Ex "cam1" false).1 = some fxLiveProc ∧
    (rtsp_snap_popen fxEnv ((rtsp_snap_popen fxEnv fxC6Ex "cam1" false).2) "cam1" false).1 =
      some fxLiveProc := by
  have h := rtsp_snap_popen_reuses_live_handle fxEnv fxC6Ex "cam1" false false
    fxBase fxLiveProc rfl rfl rfl
  exact ⟨rfl, rfl, rfl, h.1, h.2.2.2.2⟩

/-! ### C2 -/

/-- C2 counterexample: `active_streams` consults only `health_check() > 0`;
a disabled but healthy entry is returned, so the result is not "the keys of
entries that are both enabled and healthy". -/
theorem active_streams_returns_disabled_key :
    active_streams fxC2State = ["cam1"] ∧
    dictGet fxC2State.streams "cam1" = some fxDisabled ∧
    fxDisabled.enabled = false ∧ fxDisabled.health > 0 :=
  ⟨rfl, rfl, rfl, by norm_num [fxDisabled, fxBase]⟩

/-- C2 (amended): `active_streams` returns exactly the keys of the healthy
entries (`health_check() > 0`), in registry order, regardless of the
`enabled` flag; and it returns `[]` whenever the stop flag is set, even if
entries are healthy. -/
theorem active_streams_spec (st : SMState) :
    (st.stop_flag = true → active_streams st = []) ∧
    (st.stop_flag = false →
      active_streams st = (st.streams.filter fun p => p.2.health > 0).map Prod.fst) ∧
    ∀ cam, cam ∈ active_streams st ↔
      st.stop_flag = false ∧ ∃ s, (cam, s) ∈ st.streams ∧ s.health > 0 := by
  refine ⟨fun h => by simp [active_streams, h], fun h => by simp [active_streams, h],
    fun cam => ?_⟩
  unfold active_streams
  cases hf : st.stop_flag with
  | true => simp [hf]
  | false =>
      simp only [hf, Bool.false_eq_true, if_false, List.mem_map, List.mem_filter,
        eq_self_iff_true, true_and]
      constructor
      · rintro ⟨⟨c, s⟩, ⟨hmem, hh⟩, rfl⟩
        exact ⟨s, hmem, by simpa using hh⟩
      · rintro ⟨s, hmem, hh⟩
        exact ⟨(cam, s), ⟨hmem, by simpa using hh⟩, rfl⟩

/-- C2 witness: with the stop flag set over a healthy registry the active
list is empty. -/
theorem active_streams_spec_witness :
    fxStopState.stop_flag = true ∧ active_streams fxStopState = [] :=
  ⟨rfl, (active_streams_spec fxStopState).1 rfl⟩

/-! ### C8 -/

/-- C8 counterexample: for the absent key "all" with command
"update_snapshot" the dispatcher does not return a not-found error — the
broadcast special case fires first, returning a success envelope and even
mutating `last_snap` (a side effect). -/
theorem send_cmd_all_bypasses_not_found :
    dictGet fxEmptyEx.st.streams "all" = none ∧
    (send_cmd fxEnv fxEmptyEx "all" "update_snapshot" (JVal.str "")).1 =
      [("status", JVal.str "success"), ("command", JVal.str "update_snapshot"),
       ("payload", JVal.str "")] ∧
    (send_cmd fxEnv fxEmptyEx "all" "update_snapshot" (JVal.str "")).2.st.last_snap = 100 ∧
    fxEmptyEx.st.last_snap = 7 :=
  ⟨rfl, rfl, rfl, rfl⟩

/-- C8 (amended): for a key absent from the registry — except the reserved
broadcast combination key = "all" with command = "update_snapshot", which
is intercepted before the lookup — `send_cmd` returns the error envelope
extended with a "Camera not found" response and leaves the execution point
entirely unchanged: nothing is spawned, published or tracked. -/
theorem send_cmd_not_found (env : Env) (ex : Exec) (cam cmd : String) (payload : JVal)
    (h : dictGet ex.st.streams cam = none)
    (hne : ¬(cam = "all" ∧ cmd = "update_snapshot")) :
    send_cmd env ex cam cmd payload =
      ([("status", JVal.str "error"), ("command", JVal.str cmd), ("payload", payload),
        ("response", JVal.str "Camera not found")], ex) := by
  unfold send_cmd
  rw [if_neg hne, h]
  rfl

/-- C8 witness: the absent key "missing-cam" with command "reboot". -/
theorem send_cmd_not_found_witness :
    dictGet fxEx.st.streams "missing-cam" = none ∧
    send_cmd fxEnv fxEx "missing-cam" "reboot" (JVal.str "") =
      ([("status", JVal.str "error"), ("command", JVal.str "reboot"),
        ("payload", JVal.str ""), ("response", JVal.str "Camera not found")], fxEx) :=
  ⟨rfl, send_cmd_not_found fxEnv fxEx "missing-cam" "reboot" (JVal.str "") rfl (by decide)⟩

/-! ### C3 -/

/-- A stream registered under the reserved key "all". -/
def fxAllStream : Stream := { fxBase with uri := "all", name_uri := "all" }

def fxC3Ex : Exec :=
  { st := { fxEmptyState with streams := [("all", fxAllStream)] }, effs := [], spawned := 0 }

/-- C3 counterexample: a stream registered under the key "all" whose
`send_cmd` yields no response; for command "update_snapshot" the broadcast
special case fires before the lookup, so the dispatcher returns a success
envelope instead of the generic error envelope required by the claim. -/
theorem send_cmd_registered_all_key_intercepted :
    dictGet fxC3Ex.st.streams "all" = some fxAllStream ∧
    fxAllStream.send_cmd_resp "update_snapshot" (JVal.str "") = [] ∧
    (send_cmd fxEnv fxC3Ex "all" "update_snapshot" (JVal.str "")).1 =
      [("status", JVal.str "success"), ("command", JVal.str "update_snapshot"),
       ("payload", JVal.str "")] :=
  ⟨rfl, rfl, rfl⟩

/-- C3 (amended): for a registered key and any command/payload — except
the broadcast combination key = "all" with command = "update_snapshot" —
when the stream's `send_cmd` returns no (an empty) response, the
dispatcher returns exactly the generic error envelope
`{status: "error", command, payload}`. The embedding is a total function,
so the value is always returned, never an exception. -/
theorem send_cmd_empty_response (env : Env) (ex : Exec) (cam cmd : String) (payload : JVal)
    (s : Stream) (hne : ¬(cam = "all" ∧ cmd = "update_snapshot"))
    (hs : dictGet ex.st.streams cam = some s)
    (hr : s.send_cmd_resp cmd payload = []) :
    (send_cmd env ex cam cmd payload).1 = err_resp cmd payload := by
  unfold send_cmd
  rw [if_neg hne, hs]
  simp only []
  rw [hr]
  rfl

/-- C3 witness: "cam1" with a no-response stream and command "reboot". -/
theorem send_cmd_empty_response_witness :
    dictGet fxEx.st.streams "cam1" = some fxBase ∧
    fxBase.send_cmd_resp "reboot" (JVal.str "") = [] ∧
    (send_cmd fxEnv fxEx "cam1" "reboot" (JVal.str "")).1 = err_resp "reboot" (JVal.str "") :=
  ⟨rfl, rfl,
   send_cmd_empty_response fxEnv fxEx "cam1" "reboot" (JVal.str "") fxBase
     (by decide) rfl rfl⟩

/-! ### C7 -/

/-- C7: `send_cmd("all", "update_snapshot", payload)` returns the success
envelope `{status: "success", command, payload}` and its entire effect on
the execution point is exactly `snap_all` with force set (the forced
snapshot round over the active keys, bypassing the interval policy); in
particular no command is ever forwarded to an individual stream entry. -/
theorem send_cmd_all_update_snapshot (env : Env) (ex : Exec) (payload : JVal) :
    send_cmd env ex "all" "update_snapshot" payload =
      ([("status", JVal.str "success"), ("command", JVal.str "update_snapshot"),
        ("payload", payload)],
       snap_all env ex none true) ∧
    ∀ c m, Eff.forward_cmd c m ∈ (send_cmd env ex "all" "update_snapshot" payload).2.effs →
      Eff.forward_cmd c m ∈ ex.effs := by
  have h1 : send_cmd env ex "all" "update_snapshot" payload =
      (dictMerge (err_resp "update_snapshot" payload) [("status", JVal.str "success")],
       snap_all env ex none true) := by
    unfold send_cmd
    rw [if_pos ⟨rfl, rfl⟩]
  refine ⟨by rw [h1]; rfl, fun c m hm => ?_⟩
  rw [h1] at hm
  exact snap_all_forward env ex none true c m hm

/-- C7 witness: the broadcast snapshot request over a concrete registry. -/
theorem send_cmd_all_update_snapshot_witness :
    send_cmd fxEnv fxEx "all" "update_snapshot" (JVal.str "") =
      ([("status", JVal.str "success"), ("command", JVal.str "update_snapshot"),
        ("payload", JVal.str "")], snap_all fxEnv fxEx none true) :=
  (send_cmd_all_update_snapshot fxEnv fxEx (JVal.str "")).1

/-! ### C9 -/

/-- C9: with force unset and the interval policy reporting that no round is
due, `snap_all` is a complete no-op — the returned execution point is the
input one, so no capture subprocess is spawned, no API thumbnail is
requested and `last_snap` is unchanged. Whenever a round does proceed
(force set or policy due), `last_snap` equals the current time in the
result: it is set once before the per-key dispatch and the dispatch never
modifies it. -/
theorem snap_all_gate (env : Env) (ex : Exec) (cams : Option (List String)) :
    (env.should_take_snapshot env.snapshot_type ex.st.last_snap = false →
       snap_all env ex cams false = ex) ∧
    (∀ f : Bool, (f || env.should_take_snapshot env.snapshot_type ex.st.last_snap) = true →
       (snap_all env ex cams f).st.last_snap = env.now) := by
  constructor
  · intro hp
    unfold snap_all
    rw [if_neg (by simp [hp])]
  · intro f hf
    unfold snap_all
    rw [if_pos hf, foldl_snap_cam_last_snap]
    rfl

/-- C9 witness: the not-due policy leaves everything unchanged; the forced
round stamps `last_snap` with the current time. -/
theorem snap_all_gate_witness :
    fxEnv.should_take_snapshot fxEnv.snapshot_type fxEx.st.last_snap = false ∧
    snap_all fxEnv fxEx none false = fxEx ∧
    (snap_all fxEnv fxEx none true).st.last_snap = fxEnv.now :=
  ⟨rfl, (snap_all_gate fxEnv fxEx none).1 rfl, (snap_all_gate fxEnv fxEx none).2 true rfl⟩

/-! ### C5 -/

/-- C5: for a registered, healthy key, `get_rtsp_snap` returns true exactly
when the capture handle's bounded wait yields exit code 0 — any other exit
code, a timeout, or a wait failure yields false — and in all of these
cases the key is absent from the `rtsp_snapshots` tracker when the call
returns. -/
theorem get_rtsp_snap_spec (env : Env) (ex : Exec) (cam : String) (s : Stream) (p : Proc)
    (hs : dictGet ex.st.streams cam = some s) (hh : ¬ s.health < 1)
    (hp : (rtsp_snap_popen env ex cam false).1 = some p)
    (hnd : ((ex.st.rtsp_snapshots).map Prod.fst).Nodup) :
    ((get_rtsp_snap env ex cam).1 = true ↔ p.waitResult = some 0) ∧
    dictGet ((get_rtsp_snap env ex cam).2).st.rtsp_snapshots cam = none := by
  have hr : rtsp_snap_popen env ex cam false =
      (some p, (rtsp_snap_popen env ex cam false).2) := by
    rw [← hp]
  have hmain := get_rtsp_snap_wait env ex ((rtsp_snap_popen env ex cam false).2)
    cam s p hs hh hr
  constructor
  · rw [hmain]
    simp
  · rw [hmain]
    exact stop_subprocess_tracker_absent _ cam
      (nodup_tracker_rtsp_snap_popen env ex cam false hnd)

/-- C5 witness: a healthy registered key whose fresh capture process exits
with code 0 within the bound; afterwards the tracker no longer holds the
key. -/
theorem get_rtsp_snap_spec_witness :
    dictGet fxEx.st.streams "cam1" = some fxBase ∧
    ¬ fxBase.health < 1 ∧
    (rtsp_snap_popen fxEnv fxEx "cam1" false).1 = some (fxEnv.fresh 0) ∧
    ((get_rtsp_snap fxEnv fxEx "cam1").1 = true ↔ (fxEnv.fresh 0).waitResult = some 0) ∧
    dictGet ((get_rtsp_snap fxEnv fxEx "cam1").2).st.rtsp_snapshots "cam1" = none := by
  have h := get_rtsp_snap_spec fxEnv fxEx "cam1" fxBase (fxEnv.fresh 0) rfl (by decide) rfl
    List.nodup_nil
  exact ⟨rfl, by decide, rfl, h.1, h.2⟩

/-! ### C1 -/

theorem suffix_append_ptz (b : String) : b ++ "-" ++ "ptz" = b ++ "-ptz" := by
  rw [String.append_assoc]
  rfl

theorem suffix_append_wide (b : String) : b ++ "-" ++ "wide" = b ++ "-wide" := by
  rw [String.append_assoc]
  rfl

theorem ptz_key_ne_empty (b : String) : b ++ "-ptz" ≠ "" := by
  intro h
  have h2 := congrArg String.length h
  rw [String.length_append] at h2
  have h3 : ("-ptz" : String).length = 4 := rfl
  have h4 : ("" : String).length = 0 := rfl
  omega

theorem ptz_key_ne_wide_key (b : String) : b ++ "-ptz" ≠ b ++ "-wide" := by
  intro h
  have h2 := congrArg String.length h
  rw [String.length_append, String.length_append] at h2
  have h3 : ("-ptz" : String).length = 4 := rfl
  have h4 : ("-wide" : String).length = 5 := rfl
  omega

theorem add_result_uri_cons (v : Stream) (l : List Stream) (s : Stream) :
    add_result_uri (v :: l) s = if v.uri = "" then s.uri else v.uri := rfl

/-- C1: registering a stream whose (effective) product model is in the
dual-channel set {"WL_DUO", "GW_DUO"} inserts exactly two entries — the
base key suffixed "-ptz" (channel 0, display label suffixed "(PTZ)") and
the base key suffixed "-wide" (channel 1, display label suffixed
"(Wide)"), both carrying the same underlying device descriptor — and
returns the "-ptz" key; registering any other stream inserts exactly one
entry under the stream's own key, unchanged, and returns that key. -/
theorem add_duo_expansion (st : SMState) (s : Stream) :
    (effective_product_model s ∈ duo_models →
       (add st s).1 = duo_base_uri s ++ "-ptz" ∧
       (add st s).2.streams =
         dictInsert
           (dictInsert st.streams (duo_base_uri s ++ "-ptz") (mk_variant s 0 "ptz" "(PTZ)"))
           (duo_base_uri s ++ "-wide") (mk_variant s 1 "wide" "(Wide)") ∧
       duo_base_uri s ++ "-ptz" ≠ duo_base_uri s ++ "-wide" ∧
       dictGet (add st s).2.streams (duo_base_uri s ++ "-ptz") =
         some (mk_variant s 0 "ptz" "(PTZ)") ∧
       dictGet (add st s).2.streams (duo_base_uri s ++ "-wide") =
         some (mk_variant s 1 "wide" "(Wide)") ∧
       (mk_variant s 0 "ptz" "(PTZ)").channel = 0 ∧
       (mk_variant s 1 "wide" "(Wide)").channel = 1 ∧
       (mk_variant s 0 "ptz" "(PTZ)").cam = s.cam ∧
       (mk_variant s 1 "wide" "(Wide)").cam = s.cam ∧
       (mk_variant s 0 "ptz" "(PTZ)").display_name =
         (if s.cam.nickname ≠ "" then s.cam.nickname else s.uri) ++ " " ++ "(PTZ)" ∧
       (mk_variant s 1 "wide" "(Wide)").display_name =
         (if s.cam.nickname ≠ "" then s.cam.nickname else s.uri) ++ " " ++ "(Wide)" ∧
       (dictGet st.streams (duo_base_uri s ++ "-ptz") = none →
        dictGet st.streams (duo_base_uri s ++ "-wide") = none →
        (add st s).2.streams.length = st.streams.length + 2)) ∧
    (effective_product_model s ∉ duo_models →
       (add st s).1 = s.uri ∧
       (add st s).2.streams = dictInsert st.streams s.uri s) := by
  constructor
  · intro hm
    have hv : duo_variants s = [mk_variant s 0 "ptz" "(PTZ)", mk_variant s 1 "wide" "(Wide)"] := by
      unfold duo_variants
      rw [if_pos hm]
    have hPuri : (mk_variant s 0 "ptz" "(PTZ)").uri = duo_base_uri s ++ "-ptz" :=
      suffix_append_ptz (duo_base_uri s)
    have hWuri : (mk_variant s 1 "wide" "(Wide)").uri = duo_base_uri s ++ "-wide" :=
      suffix_append_wide (duo_base_uri s)
    have h1 : (add st s).1 = duo_base_uri s ++ "-ptz" := by
      show add_result_uri (duo_variants s) s = duo_base_uri s ++ "-ptz"
      rw [hv, add_result_uri_cons, hPuri, if_neg (ptz_key_ne_empty (duo_base_uri s))]
    have h2 : (add st s).2.streams =
        dictInsert
          (dictInsert st.streams (duo_base_uri s ++ "-ptz") (mk_variant s 0 "ptz" "(PTZ)"))
          (duo_base_uri s ++ "-wide") (mk_variant s 1 "wide" "(Wide)") := by
      show (duo_variants s).foldl (fun acc v => dictInsert acc v.uri v) st.streams = _
      rw [hv, List.foldl_cons, List.foldl_cons, List.foldl_nil, hPuri, hWuri]
    have hne := ptz_key_ne_wide_key (duo_base_uri s)
    refine ⟨h1, h2, hne, ?_, ?_, rfl, rfl, rfl, rfl, rfl, rfl, ?_⟩
    · rw [h2, dictGet_dictInsert_ne _ _ _ _ (Ne.symm hne), dictGet_dictInsert_self]
    · rw [h2, dictGet_dictInsert_self]
    · intro hP hW
      rw [h2]
      rw [length_dictInsert_of_absent _ _ _
            (by rw [dictGet_dictInsert_ne _ _ _ _ hne]; exact hW),
          length_dictInsert_of_absent _ _ _ hP]
  · intro hm
    have hv : duo_variants s = [s] := by
      unfold duo_variants
      rw [if_neg hm]
    constructor
    · show add_result_uri (duo_variants s) s = s.uri
      rw [hv, add_result_uri_cons]
      exact ite_self s.uri
    · show (duo_variants s).foldl (fun acc v => dictInsert acc v.uri v) st.streams = _
      rw [hv, List.foldl_cons, List.foldl_nil]

/-- C1 witness: a WL_DUO stream registers as "cam1-ptz"/"cam1-wide" and
returns the PTZ key; a plain-model stream registers under its own key. -/
theorem add_duo_expansion_witness :
    effective_product_model fxDuoStream ∈ duo_models ∧
    (add fxEmptyState fxDuoStream).1 = duo_base_uri fxDuoStream ++ "-ptz" ∧
    duo_base_uri fxDuoStream ++ "-ptz" = "cam1-ptz" ∧
    effective_product_model fxBase ∉ duo_models ∧
    (add fxEmptyState fxBase).1 = fxBase.uri := by
  have h := add_duo_expansion fxEmptyState fxDuoStream
  have h2 := add_duo_expansion fxEmptyState fxBase
  exact ⟨by decide, (h.1 (by decide)).1, rfl, by decide, (h2.2 (by decide)).1⟩

/-! ### C4 -/

/-- A disconnected stream whose response reports success but carries no
"update_snapshot" key. -/
def fxC4NoKey : Stream :=
  { fxBase with
    connected := false
    send_cmd_resp := fun _ _ => [("status", JVal.str "success"), ("value", JVal.str "ok")] }

def fxC4NoKeyEx : Exec :=
  { st := { fxEmptyState with streams := [("cam1", fxC4NoKey)] }, effs := [], spawned := 0 }

/-- C4 counterexample: the snapshot path is guarded by the presence of the
key "update_snapshot" in the response dictionary, not by the command
string. Here the command is "update_snapshot" and the stream returns a
response, yet the not-connected stream is never stopped, the published
value is the extracted status string "ok" (neither a timestamp nor 0), and
the returned envelope is the stream's raw response rather than a success
envelope carrying the snapshot outcome. -/
theorem send_cmd_update_snapshot_key_required :
    fxC4NoKey.connected = false ∧
    fxC4NoKey.send_cmd_resp "update_snapshot" (JVal.str "") =
      [("status", JVal.str "success"), ("value", JVal.str "ok")] ∧
    (send_cmd fxEnv fxC4NoKeyEx "cam1" "update_snapshot" (JVal.str "")).2.effs =
      [Eff.forward_cmd "cam1" "update_snapshot",
       Eff.publish "cam1/update_snapshot" (JVal.str "ok")] ∧
    (send_cmd fxEnv fxC4NoKeyEx "cam1" "update_snapshot" (JVal.str "")).1 =
      [("status", JVal.str "success"), ("value", JVal.str "ok")] :=
  ⟨rfl, rfl, rfl, rfl⟩

/-- C4 (amended): when the addressed stream's response contains the key
"update_snapshot" (the code's actual trigger; the command string is not
consulted), the dispatcher attempts a fresh snapshot, stops the stream
afterwards exactly when it was not connected beforehand (demand-opened),
publishes a notification whose value is the current timestamp when the
snapshot succeeded and 0 when it failed, and returns a success envelope
carrying the snapshot outcome in its "value" and "response" fields. -/
theorem send_cmd_update_snapshot_path (env : Env) (ex : Exec) (cam cmd : String)
    (payload : JVal) (s : Stream)
    (hne : ¬(cam = "all" ∧ cmd = "update_snapshot"))
    (hs : dictGet ex.st.streams cam = some s)
    (hr : (s.send_cmd_resp cmd payload).isEmpty = false)
    (hk : (dictGet (s.send_cmd_resp cmd payload) "update_snapshot").isSome = true) :
    (send_cmd env ex cam cmd payload).1 =
      [("status", JVal.str "success"), ("command", JVal.str cmd), ("payload", payload),
       ("value", JVal.bool (get_rtsp_snap env (add_eff ex (Eff.forward_cmd cam cmd)) cam).1),
       ("response", JVal.bool (get_rtsp_snap env (add_eff ex (Eff.forward_cmd cam cmd)) cam).1)] ∧
    (send_cmd env ex cam cmd payload).2.effs =
      (get_rtsp_snap env (add_eff ex (Eff.forward_cmd cam cmd)) cam).2.effs ++
        (if s.connected then [] else [Eff.stream_stop cam]) ++
        [Eff.publish (cam ++ "/" ++ cmd)
           (if (get_rtsp_snap env (add_eff ex (Eff.forward_cmd cam cmd)) cam).1
            then JVal.num (Int.ofNat env.now) else JVal.num 0)] ∧
    (s.connected = false →
       Eff.stream_stop cam ∈ (send_cmd env ex cam cmd payload).2.effs) := by
  have hmain : send_cmd env ex cam cmd payload =
      (dictMerge (err_resp cmd payload)
         [("status", JVal.str "success"),
          ("value", JVal.bool (get_rtsp_snap env (add_eff ex (Eff.forward_cmd cam cmd)) cam).1),
          ("response", JVal.bool
            (get_rtsp_snap env (add_eff ex (Eff.forward_cmd cam cmd)) cam).1)],
       add_eff
         (stop_if_demand cam s.connected
            (get_rtsp_snap env (add_eff ex (Eff.forward_cmd cam cmd)) cam).2)
         (Eff.publish (cam ++ "/" ++ cmd)
            (if (get_rtsp_snap env (add_eff ex (Eff.forward_cmd cam cmd)) cam).1
             then JVal.num (Int.ofNat env.now) else JVal.num 0))) := by
    unfold send_cmd
    rw [if_neg hne, hs]
    simp only []
    rw [hr, if_neg (by simp), if_pos hk]
  have heffs : (send_cmd env ex cam cmd payload).2.effs =
      (get_rtsp_snap env (add_eff ex (Eff.forward_cmd cam cmd)) cam).2.effs ++
        (if s.connected then [] else [Eff.stream_stop cam]) ++
        [Eff.publish (cam ++ "/" ++ cmd)
           (if (get_rtsp_snap env (add_eff ex (Eff.forward_cmd cam cmd)) cam).1
            then JVal.num (Int.ofNat env.now) else JVal.num 0)] := by
    rw [hmain]
    cases hc : s.connected
    · simp [stop_if_demand, add_eff, hc, List.append_assoc]
    · simp [stop_if_demand, add_eff, hc, List.append_assoc]
  refine ⟨by rw [hmain]; rfl, heffs, fun hc => ?_⟩
  rw [heffs, hc]
  simp

/-- A disconnected stream whose response contains the "update_snapshot"
key, triggering the snapshot path even for another command string. -/
def fxC4Key : Stream :=
  { fxBase with
    connected := false
    send_cmd_resp := fun _ _ =>
      [("status", JVal.str "success"), ("update_snapshot", JVal.null)] }

def fxC4KeyEx : Exec :=
  { st := { fxEmptyState with streams := [("cam1", fxC4Key)] }, effs := [], spawned := 0 }

/-- C4 witness: a demand-opened (not connected) stream whose response
carries the "update_snapshot" key is stopped after the snapshot attempt. -/
theorem send_cmd_update_snapshot_path_witness :
    dictGet fxC4KeyEx.st.streams "cam1" = some fxC4Key ∧
    (fxC4Key.send_cmd_resp "snap" (JVal.str "")).isEmpty = false ∧
    (dictGet (fxC4Key.send_cmd_resp "snap" (JVal.str "")) "update_snapshot").isSome = true ∧
    fxC4Key.connected = false ∧
    Eff.stream_stop "cam1" ∈ (send_cmd fxEnv fxC4KeyEx "cam1" "snap" (JVal.str "")).2.effs := by
  have h := send_cmd_update_snapshot_path fxEnv fxC4KeyEx "cam1" "snap" (JVal.str "")
    fxC4Key (by decide) rfl rfl rfl
  exact ⟨rfl, rfl, rfl, rfl, h.2.2 rfl⟩

end WB
